import Mathlib

/-!
Verification of the custom-operator registration and dispatch mechanism of
`torch/_custom_op/impl.py` (the "typed extension-point registry" of the spec).

The Python code is shallowly embedded: the `CustomOp` class becomes a Lean
structure, its `_impls` dict becomes an insertion-ordered association list
with Python-dict semantics, raised exceptions become `Except` errors, and the
process-global `global_registry` plus the host dispatcher's state become an
explicit `GlobalState` that is threaded through `declare`/`destroy`.

Components of the host framework that are not part of the excerpted sources
(the C++ dispatcher's kernel selection, `torch.library`'s `define`, the
autograd indirection kernel of `torch/_custom_op/autograd.py`, and the
torchgen schema parser) are modelled from the specification; each such
definition carries a doc comment starting with "Modelled from the spec:".
-/

/-! ## Python dict model (insertion-ordered association list) -/

/-- Model of a Python `dict` with `String` keys: an insertion-ordered
association list with unique keys maintained by `dinsert`. -/
abbrev Dict (α : Type) := List (String × α)

/-- Key lookup, i.e. Python `d[k]` / `d.get(k)`. -/
def dlookup {α : Type} : Dict α → String → Option α
  | [], _ => none
  | (k, v) :: rest, key => if k = key then some v else dlookup rest key

/-- Key insertion, i.e. Python `d[k] = v`: overwrites in place if the key is
present, otherwise appends (Python dicts preserve insertion order). -/
def dinsert {α : Type} : Dict α → String → α → Dict α
  | [], key, v => [(key, v)]
  | (k, w) :: rest, key, v =>
      if k = key then (key, v) :: rest else (k, w) :: dinsert rest key v

/-- Key removal, i.e. Python `del d[k]`. -/
def derase {α : Type} (d : Dict α) (key : String) : Dict α :=
  d.filter (fun p => !(p.1 == key))

theorem dlookup_dinsert_self {α : Type} (d : Dict α) (k : String) (v : α) :
    dlookup (dinsert d k v) k = some v := by
  induction d with
  | nil => simp [dinsert, dlookup]
  | cons hd tl ih =>
      obtain ⟨k', v'⟩ := hd
      by_cases h : k' = k
      · simp [dinsert, h, dlookup]
      · simp [dinsert, h, dlookup, ih]

theorem dlookup_dinsert_ne {α : Type} (d : Dict α) (k k' : String) (v : α)
    (h : k ≠ k') : dlookup (dinsert d k v) k' = dlookup d k' := by
  induction d with
  | nil => simp [dinsert, dlookup, h]
  | cons hd tl ih =>
      obtain ⟨k0, v0⟩ := hd
      by_cases h0 : k0 = k
      · subst h0
        simp [dinsert, dlookup, h]
      · simp [dinsert, h0, dlookup, ih]

theorem dlookup_derase_self {α : Type} (d : Dict α) (k : String) :
    dlookup (derase d k) k = none := by
  induction d with
  | nil => rfl
  | cons hd tl ih =>
      obtain ⟨k0, v0⟩ := hd
      by_cases h : k0 = k
      · simpa [derase, List.filter_cons, h] using ih
      · simpa [derase, List.filter_cons, h, dlookup] using ih

/-! ## Name validation (`parse_qualname`, `validate_namespace`,
`validate_device_type`) -/

/-- Error taxonomy. Constructors correspond to the exception sites of the
Python code; names follow the specification's error taxonomy (the code raises
`ValueError` / `RuntimeError` / `NotImplementedError` with the carried
message). -/
inductive OpError where
  | invalidName (msg : String)
  | reservedNamespace (msg : String)
  | duplicateDeclaration (msg : String)
  | duplicateKindRegistration (msg : String)
  | funcNameMismatch (msg : String)
  | schemaInferenceError (msg : String)
  | nonFunctionalSchema (msg : String)
  | invalidDeviceType (msg : String)
  | externalConflict (msg : String)
  | noImplementation (msg : String)
  | noTensorInputs (msg : String)
  | incompleteComposition (msg : String)
  | notFound (msg : String)
  | cannotRegisterBackward (msg : String)
  | invalidOutputDifferentiability (msg : String)
  | assertionFailed
deriving DecidableEq, Repr

/-- `RESERVED_NS` from the source: namespaces users may not register under. -/
def RESERVED_NS : List String :=
  ["prim", "prims", "aten", "at", "torch", "pytorch"]

/-- `SUPPORTED_DEVICE_TYPE_TO_KEY` from the source. -/
def SUPPORTED_DEVICE_TYPE_TO_KEY : Dict String :=
  [("cpu", "CPU"), ("cuda", "CUDA")]

/-- Python `qualname.split("::", 1)`: scanning left to right, splits the
character list at the first occurrence of `::`; `none` when `::` does not
occur. -/
def find_sep : List Char → Option (List Char × List Char)
  | [] => none
  | ':' :: ':' :: rest => some ([], rest)
  | c :: rest =>
      match find_sep rest with
      | none => none
      | some (pre, post) => some (c :: pre, post)

/-- `parse_qualname` from the source: splits at the first `::` (Python
`qualname.split("::", 1)`); fails if there is no `::`, or if the part after
it contains a `.`. -/
def parse_qualname (qualname : String) : Except OpError (String × String) :=
  match find_sep qualname.data with
  | none => .error (.invalidName
      ("Expected there to be a namespace in " ++ qualname ++
       ", i.e. The operator name should look something like ns::foo"))
  | some (pre, post) =>
      if post.contains '.' then
        .error (.invalidName
          ("The torch.custom_ops APIs do not handle overloads, i.e. operator "
           ++ "names with a dot in them. Please name your operator something "
           ++ "like ns::foo. Got: " ++ qualname))
      else
        .ok (String.mk pre, String.mk post)

/-- `validate_namespace` from the source: rejects namespaces containing a `.`
and namespaces in the reserved set. -/
def validate_namespace (ns : String) : Except OpError Unit :=
  if ns.data.contains '.' then
    .error (.invalidName
      ("custom_op: expected ns to not contain any dot (and be a valid "
       ++ "variable name): " ++ ns))
  else if RESERVED_NS.contains ns then
    .error (.reservedNamespace
      ("custom_op: " ++ ns ++ " is a reserved namespace, please choose "
       ++ "something else."))
  else
    .ok ()

/-- The name-validation part of `declare`: `parse_qualname` followed by
`validate_namespace`, exactly as `custom_op(...)(func)` runs them. -/
def parse_and_validate (qualname : String) : Except OpError (String × String) :=
  match parse_qualname qualname with
  | .error e => .error e
  | .ok (ns, name) =>
      match validate_namespace ns with
      | .error e => .error e
      | .ok () => .ok (ns, name)

/-- Message of `validate_device_type`. -/
def device_err_msg (d : String) : String :=
  "CustomOp.impl(device_types=[" ++ d ++ ", ...]): we only support "
  ++ "device_type cpu or cuda."

/-- `validate_device_type` from the source: only the keys of
`SUPPORTED_DEVICE_TYPE_TO_KEY` (`cpu`, `cuda`) are accepted. -/
def validate_device_type (device_type : String) : Except OpError Unit :=
  if (dlookup SUPPORTED_DEVICE_TYPE_TO_KEY device_type).isSome then
    .ok ()
  else
    .error (.invalidDeviceType (device_err_msg device_type))

/-! ## Schema inference (`infer_schema`, `derived_types`,
`get_supported_param_types`, `parse_return`) -/

/-- Model of the Python type annotations that can appear on a prototype
function's parameters and returns: the base types of the source's
supported-type table, plus `Optional`, `List` and `Sequence` constructors. -/
inductive PyType where
  | tensor
  | int
  | float
  | bool
  | str
  | number
  | dtype
  | device
  | optional (t : PyType)
  | list (t : PyType)
  | sequence (t : PyType)
deriving DecidableEq, BEq, Repr

/-- `inspect.Parameter.kind` restricted to what `supported_param`
distinguishes. -/
inductive ParamKind where
  | positionalOrKeyword
  | keywordOnly
  | otherKind
deriving DecidableEq, Repr

/-- Model of one `inspect.Parameter`: name, optional type annotation
(`none` = `inspect.Parameter.empty`), whether a default value is declared,
and the parameter kind. -/
structure Param where
  name : String
  ann : Option PyType
  hasDefault : Bool
  kind : ParamKind
deriving DecidableEq, Repr

/-- Model of a return annotation: Python `None`, a single type, or a
`Tuple[...]` of types. -/
inductive RetAnn where
  | noRet
  | single (t : PyType)
  | tup (ts : List PyType)
deriving DecidableEq, Repr

/-- `supported_param` from the source. -/
def supported_param (p : Param) : Bool :=
  p.kind == .positionalOrKeyword || p.kind == .keywordOnly

/-- `derived_types` from the source: given a base python type and its schema
rendering, produces the entries of the supported-type table (base,
optional-of, and sequence/list variants as enabled by the three flags). -/
def derived_types (base_type : PyType) (cpp_type : String)
    (list_base optional_base_list optional_list_base : Bool) :
    List (PyType × String) :=
  [(base_type, cpp_type), (.optional base_type, cpp_type ++ "?")]
  ++ (if list_base then
        [(.sequence base_type, cpp_type ++ "[]"),
         (.list base_type, cpp_type ++ "[]")]
      else [])
  ++ (if optional_base_list then
        [(.sequence (.optional base_type), cpp_type ++ "?[]"),
         (.list (.optional base_type), cpp_type ++ "?[]")]
      else [])
  ++ (if optional_list_base then
        [(.optional (.sequence base_type), cpp_type ++ "[]?"),
         (.optional (.list base_type), cpp_type ++ "[]?")]
      else [])

/-- `get_supported_param_types` from the source: the full supported-type
table (note `int` renders as `SymInt`). -/
def get_supported_param_types : List (PyType × String) :=
  List.flatten
    [derived_types .tensor "Tensor" true true false,
     derived_types .int "SymInt" true false true,
     derived_types .float "float" true false true,
     derived_types .bool "bool" true false true,
     derived_types .str "str" false false false,
     derived_types .number "Scalar" true false false,
     derived_types .dtype "ScalarType" false false false,
     derived_types .device "Device" false false false]

/-- `SUPPORTED_PARAM_TYPES` from the source (the keys are distinct, so
first-match association-list lookup agrees with the Python dict). -/
def SUPPORTED_PARAM_TYPES : List (PyType × String) := get_supported_param_types

/-- `SUPPORTED_RETURN_TYPES` from the source. -/
def SUPPORTED_RETURN_TYPES : List (PyType × String) :=
  [(.tensor, "Tensor"), (.list .tensor, "Tensor[]"), (.int, "SymInt"),
   (.float, "float"), (.bool, "bool"), (.number, "Scalar")]

/-- First-match lookup in a python-type keyed table. -/
def tlookup : List (PyType × String) → PyType → Option String
  | [], _ => none
  | (t, s) :: rest, key => if t = key then some s else tlookup rest key

/-- `parse_return` from the source: `None` renders as `()`; a non-tuple
annotation must be in `SUPPORTED_RETURN_TYPES`; a tuple annotation renders
each component. -/
def parse_return : RetAnn → Except String String
  | .noRet => .ok "()"
  | .single t =>
      match tlookup SUPPORTED_RETURN_TYPES t with
      | some s => .ok s
      | none => .error "Return has unsupported type."
  | .tup ts =>
      if ts.all (fun t => (tlookup SUPPORTED_RETURN_TYPES t).isSome) then
        .ok ("(" ++ String.intercalate ", "
              (ts.filterMap (tlookup SUPPORTED_RETURN_TYPES)) ++ ")")
      else
        .error "Return has unsupported type."

/-- The per-parameter loop of `infer_schema`: checks parameter kind,
annotation presence, supported type and absence of defaults, and renders
each parameter, marking parameters listed in `mutated_args` as mutable. -/
def infer_schema_params :
    List Param → Nat → List String → Except String (List String)
  | [], _, _ => .ok []
  | p :: rest, idx, mutated =>
      if !(supported_param p) then
        .error "We do not support positional-only args, varargs, or varkwargs."
      else
        match p.ann with
        | none => .error ("Parameter " ++ p.name ++ " must have a type annotation.")
        | some t =>
            match tlookup SUPPORTED_PARAM_TYPES t with
            | none => .error ("Parameter " ++ p.name ++ " has unsupported type.")
            | some schema_type =>
                if p.hasDefault then
                  .error ("Parameter " ++ p.name ++ " has a default value; "
                          ++ "this is not supported.")
                else if mutated.contains p.name then
                  if schema_type.startsWith "Tensor" then
                    match infer_schema_params rest (idx + 1) mutated with
                    | .error e => .error e
                    | .ok rendered =>
                        .ok (("Tensor(a" ++ toString idx ++ "!)"
                              ++ schema_type.drop 6 ++ " " ++ p.name) :: rendered)
                  else
                    .error ("Parameter " ++ p.name ++ " is in mutable_args "
                            ++ "but only Tensors or collections of Tensors "
                            ++ "can be mutated")
                else
                  match infer_schema_params rest (idx + 1) mutated with
                  | .error e => .error e
                  | .ok rendered => .ok ((schema_type ++ " " ++ p.name) :: rendered)

/-- `infer_schema` from the source: renders the parameter list and the
return annotation as a schema string. -/
def infer_schema (params : List Param) (ret : RetAnn)
    (mutated_args : List String) : Except String String :=
  match infer_schema_params params 0 mutated_args with
  | .error e => .error e
  | .ok rendered =>
      match parse_return ret with
      | .error e => .error e
      | .ok r => .ok ("(" ++ String.intercalate ", " rendered ++ ") -> " ++ r)

/-! ## The `CustomOp` data model -/

/-- Model of a registered Python callable: either a user-supplied function
(identified by a tag) or the autograd kernel composed by
`construct_autograd_kernel` from a save-for-backward and a backward
function. -/
inductive Func where
  | user (id : Nat)
  | autogradKernel (save back : Func)
deriving DecidableEq, Repr

/-- `FuncAndLocation` from the source: the callable and the source
provenance recorded for duplicate-registration diagnostics. -/
structure FuncAndLocation where
  func : Func
  location : String
deriving DecidableEq, Repr

/-- The schema return types distinguished by
`CustomOp._check_can_register_backward`'s `allowed_return_types` table. -/
inductive SchemaRetTy where
  | int
  | symInt
  | bool
  | float
  | tensor
  | tensorList
  | other
deriving DecidableEq, Repr

/-- One return of a parsed schema: `ann = some w` models a torchgen
annotation with `is_write = w`; `none` models no annotation. -/
structure SchemaRet where
  ann : Option Bool
  ty : SchemaRetTy
deriving DecidableEq, Repr

/-- The part of a parsed torchgen `FunctionSchema` that
`CustomOp._check_can_register_backward` inspects: whether
`schema.kind() == SchemaKind.functional`, and the returns. -/
structure SchemaInfo where
  kindIsFunctional : Bool
  returns : List SchemaRet
deriving DecidableEq, Repr

/-- Model of the `CustomOp` class: qualified name, namespace, operator name,
parsed schema, the `_impls` kind-to-implementation dict, the
`_registered_autograd_kernel_indirection` flag and
`_output_differentiability`. -/
structure CustomOp where
  qualname : String
  cpp_ns : String
  opname : String
  schema : SchemaInfo
  impls : Dict FuncAndLocation
  registeredAutogradKernelIndirection : Bool
  outputDifferentiability : Option (List Bool)
deriving DecidableEq, Repr

/-- `CustomOp._has_impl`. -/
def CustomOp.has_impl (op : CustomOp) (kind : String) : Bool :=
  (dlookup op.impls kind).isSome

/-- `CustomOp._get_impl`. -/
def CustomOp.get_impl (op : CustomOp) (kind : String) : Option FuncAndLocation :=
  dlookup op.impls kind

/-- The fixed part of the duplicate-kind-registration message that precedes
the prior registration's provenance location. -/
def dup_kind_msg_pre (kind qual : String) : String :=
  "Attempting to register a " ++ kind ++ " impl for operator " ++ qual ++
  " that already has a " ++ kind ++ " impl registered from Python at "

/-- The full message of the duplicate-kind-registration error raised by
`CustomOp._register_impl`; it embeds the prior registration's location. -/
def dup_kind_msg (kind qual loc : String) : String :=
  dup_kind_msg_pre kind qual ++ loc ++ ". This is not supported."

/-- `CustomOp._register_impl` from the source: fails (leaving `_impls`
unchanged, since the exception is raised before the dict assignment) if an
implementation for `kind` is already recorded, quoting the prior
registration's location; otherwise records `(func, location)` under `kind`.
The caller's source location, which the Python code reads from the stack
frame, is passed in as `loc`. -/
def CustomOp.register_impl (op : CustomOp) (kind : String) (f : Func)
    (loc : String) : Except OpError CustomOp :=
  match dlookup op.impls kind with
  | some prior =>
      .error (.duplicateKindRegistration (dup_kind_msg kind op.qualname prior.location))
  | none =>
      .ok { op with impls := dinsert op.impls kind ⟨f, loc⟩ }

/-- `CustomOp._register_autograd_kernel_indirection` from the source: records
the flag (the accompanying `Library.impl` call installs the indirection
kernel in the host dispatcher, which is outside this model's state). -/
def CustomOp.register_autograd_kernel_indirection (op : CustomOp) : CustomOp :=
  { op with registeredAutogradKernelIndirection := true }

/-- The `allowed_return_types` table of
`CustomOp._check_can_register_backward`. -/
def allowed_return_types : List SchemaRetTy :=
  [.int, .symInt, .bool, .float, .tensor, .tensorList]

/-- `CustomOp._check_can_register_backward` from the source: requires a
functional schema, at least one return, no returns that are non-mutating
views, and every return type in the allowed table. -/
def CustomOp.check_can_register_backward (op : CustomOp) : Except OpError Unit :=
  if !op.schema.kindIsFunctional then
    .error (.cannotRegisterBackward
      ("Cannot register backward formula for non-functional operator " ++ op.qualname))
  else if op.schema.returns.isEmpty then
    .error (.cannotRegisterBackward
      ("Cannot register backward formula for operator with no returns " ++ op.qualname))
  else if op.schema.returns.any (fun r => r.ann == some false) then
    .error (.cannotRegisterBackward
      ("Cannot register backward formula for operator that returns views " ++ op.qualname))
  else if op.schema.returns.any (fun r => !(allowed_return_types.contains r.ty)) then
    .error (.cannotRegisterBackward
      ("Cannot register backward formula for operator with unsupported return type "
       ++ op.qualname))
  else
    .ok ()

/-- `CustomOp._check_doesnt_have_library_autograd_impl` from the source. The
host dispatcher's `_dispatch_has_kernel_for_dispatch_key` is an external
collaborator and is passed in as the boolean probe `probe`. -/
def CustomOp.check_doesnt_have_library_autograd_impl (op : CustomOp)
    (probe : String → Bool) : Except OpError Unit :=
  if op.registeredAutogradKernelIndirection then
    .ok ()
  else if probe "CompositeImplicitAutograd" then
    .error (.externalConflict
      ("impl_backward/impl_save_for_backward: the operator " ++ op.qualname ++
       " already has a CompositeImplicitAutograd registration."))
  else if probe "Autograd" then
    .error (.externalConflict
      ("impl_backward/impl_save_for_backward: the operator " ++ op.qualname ++
       " already has an Autograd kernel registered to DispatchKey::Autograd"))
  else if probe "AutogradCPU" then
    .error (.externalConflict
      ("impl_backward/impl_save_for_backward: the operator " ++ op.qualname ++
       " already has an Autograd kernel registered to DispatchKey::AutogradCPU"))
  else if probe "AutogradCUDA" then
    .error (.externalConflict
      ("impl_backward/impl_save_for_backward: the operator " ++ op.qualname ++
       " already has an Autograd kernel registered to DispatchKey::AutogradCUDA"))
  else
    .ok ()

/-- `construct_autograd_kernel` lives in `torch/_custom_op/autograd.py`; here
the composed kernel is represented by its two sub-pieces. -/
def construct_autograd_kernel (save back : Func) : Func :=
  .autogradKernel save back

/-- `CustomOp._register_autograd_kernel` from the source: asserts that both
sub-pieces are present, composes them, and records the result under the
`autograd` kind. -/
def CustomOp.register_autograd_kernel (op : CustomOp) (loc : String) :
    Except OpError CustomOp :=
  match dlookup op.impls "save_for_backward", dlookup op.impls "backward" with
  | some s, some b =>
      op.register_impl "autograd" (construct_autograd_kernel s.func b.func) loc
  | _, _ => .error .assertionFailed

/-- `CustomOp.impl_save_for_backward` from the source: after the two checks,
ensures the autograd indirection kernel is installed, records the
`save_for_backward` sub-piece, and composes the autograd kernel if the
`backward` sub-piece is already present. -/
def CustomOp.impl_save_for_backward (op : CustomOp) (probe : String → Bool)
    (f : Func) (loc : String) : Except OpError CustomOp :=
  match op.check_can_register_backward with
  | .error e => .error e
  | .ok () =>
      match op.check_doesnt_have_library_autograd_impl probe with
      | .error e => .error e
      | .ok () =>
          let op := if op.registeredAutogradKernelIndirection then op
                    else op.register_autograd_kernel_indirection
          match op.register_impl "save_for_backward" f loc with
          | .error e => .error e
          | .ok op =>
              if op.has_impl "backward" then
                op.register_autograd_kernel loc
              else
                .ok op

/-- The `output_differentiability` validation at the top of
`CustomOp.impl_backward` (the list-of-bools type checks are enforced by the
Lean type; the length check remains). -/
def check_output_differentiability (op : CustomOp)
    (output_differentiability : Option (List Bool)) : Except OpError Unit :=
  match output_differentiability with
  | none => .ok ()
  | some l =>
      if op.schema.returns.length = l.length then .ok ()
      else .error (.invalidOutputDifferentiability
        ("impl_backward(output_differentiability): expected "
         ++ "output_differentiability to be a list of bools with length equal "
         ++ "to the number of outputs of this CustomOp"))

/-- `CustomOp.impl_backward` from the source: validates
`output_differentiability`, runs the two checks, ensures the indirection
kernel, records the `backward` sub-piece, stores
`_output_differentiability`, and composes the autograd kernel if the
`save_for_backward` sub-piece is already present. -/
def CustomOp.impl_backward (op : CustomOp)
    (output_differentiability : Option (List Bool)) (probe : String → Bool)
    (f : Func) (loc : String) : Except OpError CustomOp :=
  match check_output_differentiability op output_differentiability with
  | .error e => .error e
  | .ok () =>
      match op.check_can_register_backward with
      | .error e => .error e
      | .ok () =>
          match op.check_doesnt_have_library_autograd_impl probe with
          | .error e => .error e
          | .ok () =>
              let op := if op.registeredAutogradKernelIndirection then op
                        else op.register_autograd_kernel_indirection
              match op.register_impl "backward" f loc with
              | .error e => .error e
              | .ok op =>
                  let op := { op with outputDifferentiability := output_differentiability }
                  if op.has_impl "save_for_backward" then
                    op.register_autograd_kernel loc
                  else
                    .ok op

/-- `CustomOp.impl_factory` from the source: records the implementation
under the `factory` kind (the accompanying `library.impl(...,
"BackendSelect")` call targets the host dispatcher). -/
def CustomOp.impl_factory (op : CustomOp) (f : Func) (loc : String) :
    Except OpError CustomOp :=
  op.register_impl "factory" f loc

/-- The dispatch key for a validated device type
(`SUPPORTED_DEVICE_TYPE_TO_KEY[device_type]`). -/
def device_type_to_key (device_type : String) : String :=
  (dlookup SUPPORTED_DEVICE_TYPE_TO_KEY device_type).getD "Unknown"

/-- `CustomOp._check_doesnt_have_library_impl` from the source; the host
dispatcher's `_dispatch_has_computed_kernel_for_dispatch_key` is the boolean
probe `probe`. -/
def CustomOp.check_doesnt_have_library_impl (op : CustomOp)
    (device_type : String) (probe : String → Bool) : Except OpError Unit :=
  if op.has_impl device_type then
    .ok ()
  else if probe (device_type_to_key device_type) then
    .error (.externalConflict
      ("impl(..., device_types=" ++ device_type ++ "): the operator " ++
       op.qualname ++ " already has an implementation for this device type "
       ++ "via a pre-existing torch.library or TORCH_LIBRARY registration."))
  else
    .ok ()

/-- The validation loop at the top of `CustomOp.impl`: every element of
`device_types` is validated before any registration happens. -/
def validate_device_types : List String → Except OpError Unit
  | [] => .ok ()
  | d :: rest =>
      match validate_device_type d with
      | .error e => .error e
      | .ok () => validate_device_types rest

/-- Python `set(device_types)` as used by `CustomOp.impl`'s registration
loop: deduplication (modelled with first-occurrence order). -/
def dedup_devices (l : List String) : List String :=
  l.foldl (fun acc d => if acc.contains d then acc else acc ++ [d]) []

/-- The registration loop in `CustomOp.impl`'s `inner`: for each device
type, the external-conflict check followed by `_register_impl` (the
accompanying `library.impl` call targets the host dispatcher). -/
def CustomOp.impl_device_loop (op : CustomOp) (ds : List String)
    (probe : String → Bool) (f : Func) (loc : String) : Except OpError CustomOp :=
  match ds with
  | [] => .ok op
  | d :: rest =>
      match op.check_doesnt_have_library_impl d probe with
      | .error e => .error e
      | .ok () =>
          match op.register_impl d f loc with
          | .error e => .error e
          | .ok op' => op'.impl_device_loop rest probe f loc

/-- `CustomOp.impl` from the source (with the decorator already applied to
`f`): validates every supplied device type first, then registers `f` for
each distinct device type. -/
def CustomOp.impl_device (op : CustomOp) (device_types : List String)
    (probe : String → Bool) (f : Func) (loc : String) : Except OpError CustomOp :=
  match validate_device_types device_types with
  | .error e => .error e
  | .ok () => op.impl_device_loop (dedup_devices device_types) probe f loc

/-! ## Declaration, the global registry, destruction and dispatch -/

/-- Model of the Python prototype function handed to the `custom_op`
decorator: its `__name__`, its parameters and its return annotation. -/
structure PyFunc where
  pyName : String
  params : List Param
  retAnn : RetAnn
deriving DecidableEq, Repr

/-- The process-wide state: the module-level `global_registry` dict
(the spec's LifetimeRegistry), the set of operator names defined in the host
dispatcher via `Library.define`, and the `torch.ops` name-indexed table. -/
structure GlobalState where
  global_registry : Dict CustomOp
  dispatcher_defs : List String
  torch_ops : List String
deriving DecidableEq, Repr

/-- Message of the duplicate-declaration error. -/
def dup_decl_msg (qualname : String) : String :=
  "attempting to define " ++ qualname ++ ", but it is already declared"

/-- Modelled from the spec: `torch.library.Library.define` and the C++
dispatcher's schema table are not under `src/`; per the spec, declaring a
qualified name that is already live fails `DuplicateDeclaration` without
mutating state, and otherwise records the name. -/
def lib_define (st : GlobalState) (qualname : String) :
    GlobalState × Except OpError Unit :=
  if st.dispatcher_defs.contains qualname then
    (st, .error (.duplicateDeclaration (dup_decl_msg qualname)))
  else
    ({ st with dispatcher_defs := qualname :: st.dispatcher_defs }, .ok ())

/-- The return-type view of an inferred annotation, as the torchgen parser
would classify it (`int` renders and parses as `SymInt`). -/
def ret_ty_of_py_type : PyType → SchemaRetTy
  | .tensor => .tensor
  | .int => .symInt
  | .float => .float
  | .bool => .bool
  | .list .tensor => .tensorList
  | _ => .other

/-- Modelled from the spec: `torchgen.model.FunctionSchema.parse` is not
under `src/`; for a schema inferred with no mutated args the parsed schema
is functional and its returns carry no annotations. -/
def schema_info_of_inferred (ra : RetAnn) : SchemaInfo :=
  { kindIsFunctional := true,
    returns :=
      match ra with
      | .noRet => []
      | .single t => [⟨none, ret_ty_of_py_type t⟩]
      | .tup ts => ts.map (fun t => ⟨none, ret_ty_of_py_type t⟩) }

/-- Modelled from the spec: `validate_schema` calls
`torch._library.utils.is_functional_schema` (not under `src/`); for inferred
schemas this reduces to requiring at least one return, and the source
additionally rejects parameters named `self`. -/
def validate_schema_model (func : PyFunc) : Except OpError Unit :=
  match func.retAnn with
  | .noRet => .error (.nonFunctionalSchema
      ("custom_op only supports functional operators (ops that do not mutate "
       ++ "any inputs, do not return views of the inputs, and has at least "
       ++ "one return)."))
  | _ =>
      if func.params.any (fun p => p.name == "self") then
        .error (.nonFunctionalSchema
          ("custom_op does not support arguments named self. Please rename "
           ++ "your argument."))
      else
        .ok ()

/-- The `CustomOp.__init__` record (line 180-203 of the source), minus the
`global_registry` assignment which `declare` performs explicitly. A
freshly-constructed op has an empty `_impls` dict, an unset
indirection flag and no `_output_differentiability`. -/
def mk_custom_op (ns opname qualname : String) (ra : RetAnn) : CustomOp :=
  { qualname := qualname, cpp_ns := ns, opname := opname,
    schema := schema_info_of_inferred ra, impls := [],
    registeredAutogradKernelIndirection := false,
    outputDifferentiability := none }

/-- The `global_registry[self._qualname] = self` assignment on line 203 of
the source: an unconditional Python dict assignment. -/
def global_registry_put (reg : Dict CustomOp) (qualname : String)
    (op : CustomOp) : Dict CustomOp :=
  dinsert reg qualname op

/-- Message of the error raised when `func.__name__` differs from the
operator name in the qualified name. -/
def name_mismatch_msg (qualname name got : String) : String :=
  "custom_op(qualname=" ++ qualname ++ ", ...)(func): expected func to have "
  ++ "name " ++ name ++ " but got " ++ got ++ ". Please either change the "
  ++ "name of func or the qualname that is passed to custom_op"

/-- `custom_op(qualname)(func)` from the source, with the state threaded
explicitly: parses and validates the name, checks `func.__name__` against
the operator name, infers and validates the schema, defines the operator in
the host dispatcher, and finally constructs the `CustomOp` (whose
constructor puts it into `global_registry`). Mutations performed before a
raised error persist, which the returned state reflects. -/
def declare (st : GlobalState) (qualname : String) (func : PyFunc) :
    GlobalState × Except OpError CustomOp :=
  match parse_qualname qualname with
  | .error e => (st, .error e)
  | .ok (ns, name) =>
      match validate_namespace ns with
      | .error e => (st, .error e)
      | .ok () =>
          if func.pyName ≠ name then
            (st, .error (.funcNameMismatch (name_mismatch_msg qualname name func.pyName)))
          else
            match infer_schema func.params func.retAnn [] with
            | .error e => (st, .error (.schemaInferenceError e))
            | .ok _ =>
                match validate_schema_model func with
                | .error e => (st, .error e)
                | .ok () =>
                    match lib_define st qualname with
                    | (st', .error e) => (st', .error e)
                    | (st', .ok ()) =>
                        let op := mk_custom_op ns name qualname func.retAnn
                        ({ st' with global_registry :=
                            global_registry_put st'.global_registry qualname op },
                         .ok op)

/-- `CustomOp._destroy` from the source: `del self._lib` (which withdraws
the operator's dispatcher definitions), removal from the `torch.ops`
name-indexed table if present, and `del global_registry[self._qualname]`. -/
def destroy (st : GlobalState) (op : CustomOp) : GlobalState :=
  { global_registry := derase st.global_registry op.qualname,
    dispatcher_defs := st.dispatcher_defs.filter (fun n => !(n == op.qualname)),
    torch_ops := st.torch_ops.filter (fun n => !(n == op.qualname)) }

/-- `get_abstract_impl` from the source: `None` unless the name is live in
`global_registry` and the op has an `abstract` impl registered. -/
def get_abstract_impl (st : GlobalState) (qualname : String) : Option Func :=
  match dlookup st.global_registry qualname with
  | none => none
  | some op =>
      match dlookup op.impls "abstract" with
      | none => none
      | some fl => some fl.func

/-- `report_error_callback` from the source: the diagnostic message the
dispatcher reports when no kernel matches the computed dispatch key. -/
def report_error_callback (qualname key : String) : String :=
  if key = "Undefined" then
    qualname ++ ": There were no Tensor inputs to this operator (e.g. you "
    ++ "passed an empty list of Tensors). If your operator is a factory "
    ++ "function (that is, it takes no Tensors and constructs a new one), "
    ++ "then please use CustomOp.impl_factory to register an implementation "
    ++ "for it"
  else if key = "Meta" then
    qualname ++ ": when running with device=Meta tensors: there is no "
    ++ "abstract impl registered for this CustomOp. Please register one via "
    ++ "CustomOp.impl_abstract to get this CustomOp to work with Meta tensors"
  else if key = "CPU" || key = "CUDA" then
    qualname ++ ": when running with device=" ++ key.toLower ++ " tensors: "
    ++ "there is no " ++ key.toLower ++ " impl registered for this CustomOp. "
    ++ "Please register one via CustomOp.impl(device_type=" ++ key.toLower ++ ")"
  else
    qualname ++ ": No implementation for dispatch key " ++ key

/-- The runtime properties of one call argument that dispatch inspects:
whether it is a tensor-family argument and, if so, its device kind. -/
structure ArgProp where
  isTensorFamily : Bool
  kind : String
deriving DecidableEq, Repr

/-- The device priority order documented by `CustomOp.impl` (source lines
268-271): dispatch goes to the highest-priority device type among those
present, and the supported device types in order of priority are
cuda before cpu. -/
def device_priority_order : List String := ["cuda", "cpu"]

/-- Modelled from the spec: the C++ dispatcher's kernel selection
(`_C._dispatch_call_boxed`) is not under `src/`. Per the spec and the
priority documented in `CustomOp.impl`: with no tensor-family arguments the
factory-kind implementation is selected unconditionally if present and the
call otherwise fails `NoTensorInputs` (the source's `report_error_callback`
for the `Undefined` key); with tensor-family arguments present, the
highest-priority device kind among them is selected, failing
`NoImplementation` if that kind has no registered implementation. -/
def select (op : CustomOp) (args : List ArgProp) : Except OpError FuncAndLocation :=
  let tensorKinds := (args.filter (fun a => a.isTensorFamily)).map (fun a => a.kind)
  if tensorKinds = [] then
    match dlookup op.impls "factory" with
    | some fl => .ok fl
    | none => .error (.noTensorInputs (report_error_callback op.qualname "Undefined"))
  else
    match device_priority_order.find? (fun k => decide (k ∈ tensorKinds)) with
    | some k =>
        match dlookup op.impls k with
        | some fl => .ok fl
        | none => .error (.noImplementation
            (report_error_callback op.qualname (device_type_to_key k)))
    | none => .error (.noImplementation
        (report_error_callback op.qualname "Unknown"))

/-- Modelled from the spec: dereferencing a previously-held weak reference
to an extension point resolves through the LifetimeRegistry and must fail
`NotFound` — never dereference freed state — once the extension point is
destroyed. -/
def weakref_select (st : GlobalState) (qualname : String) (args : List ArgProp) :
    Except OpError FuncAndLocation :=
  match dlookup st.global_registry qualname with
  | none => .error (.notFound qualname)
  | some op => select op args

/-- Modelled from the spec: the indirection kernel installed by
`autograd_kernel_indirection` (in `torch/_custom_op/autograd.py`, not under
`src/`) resolves the composed autograd behavior at call time and fails
`IncompleteComposition` while the composed kernel is not live. -/
def autograd_indirection_call (op : CustomOp) : Except OpError FuncAndLocation :=
  match dlookup op.impls "autograd" with
  | some fl => .ok fl
  | none => .error (.incompleteComposition op.qualname)

/-! ## Theorems -/

/-- C5: Schema inference applied to a function with parameters
`(x: Tensor, n: int)` and return annotation `Tensor` renders exactly
`(Tensor x, SymInt n) -> Tensor`. -/
theorem c5_infer_schema_roundtrip :
    infer_schema
      [⟨"x", some .tensor, false, .positionalOrKeyword⟩,
       ⟨"n", some .int, false, .positionalOrKeyword⟩]
      (.single .tensor) [] = .ok "(Tensor x, SymInt n) -> Tensor" := by
  rfl

/-- Exactly the acceptance condition that `parse_qualname` followed by
`validate_namespace` implements: the name contains `::`; the part after the
first `::` contains no `.`; the part before it contains no `.` and is not
reserved. Neither part is required to be non-empty. -/
def accepted_name (q : String) : Bool :=
  match find_sep q.data with
  | none => false
  | some (pre, post) =>
      !post.contains '.'
      && !pre.contains '.'
      && !RESERVED_NS.contains (String.mk pre)

/-- C8 counterexample: the qualified name `::foo` has an empty namespace, yet
`parse_qualname` + `validate_namespace` accept it — the code checks neither
the namespace nor the symbol for non-emptiness. -/
theorem c8_empty_namespace_accepted :
    parse_and_validate "::foo" = .ok ("", "foo") := by
  rfl

/-- C8 (amended): name validation accepts a qualified name exactly when it
contains `::`, the part after the first `::` has no `.`, and the part before
it has no `.` and is not reserved (emptiness of either part is not checked);
every rejection is an `InvalidName` or `ReservedNamespace` error. -/
theorem c8_amended_validation (q : String) :
    ((∃ p, parse_and_validate q = .ok p) ↔ accepted_name q = true)
    ∧ (∀ e, parse_and_validate q = .error e →
        (∃ m, e = .invalidName m) ∨ (∃ m, e = .reservedNamespace m)) := by
  unfold parse_and_validate parse_qualname validate_namespace accepted_name
  rcases h : find_sep q.data with _ | ⟨pre, post⟩
  · simp [h]
  · simp only [h]
    by_cases h1 : '.' ∈ post
    · simp [h1]
    · by_cases h2 : '.' ∈ pre
      · simp [h1, h2]
      · by_cases h3 : String.mk pre ∈ RESERVED_NS
        · simp [h1, h2, h3]
        · simp [h1, h2, h3]

/-- C8 witness: a well-formed name is accepted, via the amended theorem. -/
theorem c8_witness : ∃ p, parse_and_validate "mylib::foo" = Except.ok p :=
  (c8_amended_validation "mylib::foo").1.mpr (by decide)

/-- C1: once a kind has a registered implementation, a second
`_register_impl` for the same kind — with any callable, identical or not —
fails `DuplicateKindRegistration`, the error message embeds the provenance
location of the prior registration, and (the result being an error) no
updated kind-to-implementation map is produced. -/
theorem c1_duplicate_kind_registration (op op1 : CustomOp) (kind : String)
    (f1 f2 : Func) (l1 l2 : String)
    (h : op.register_impl kind f1 l1 = .ok op1) :
    op1.register_impl kind f2 l2 =
      .error (.duplicateKindRegistration (dup_kind_msg kind op1.qualname l1))
    ∧ ∃ pre post, dup_kind_msg kind op1.qualname l1 = pre ++ l1 ++ post := by
  rcases hm : dlookup op.impls kind with _ | prior
  · simp only [CustomOp.register_impl, hm, Except.ok.injEq] at h
    subst h
    refine ⟨?_, dup_kind_msg_pre kind _, ". This is not supported.", rfl⟩
    simp [CustomOp.register_impl, dlookup_dinsert_self, dup_kind_msg]
  · simp [CustomOp.register_impl, hm] at h

def c1op : CustomOp :=
  { qualname := "mylib::foo", cpp_ns := "mylib", opname := "foo",
    schema := { kindIsFunctional := true, returns := [⟨none, .tensor⟩] },
    impls := [], registeredAutogradKernelIndirection := false,
    outputDifferentiability := none }

def c1op1 : CustomOp :=
  { c1op with impls := [("cpu", ⟨.user 1, "file.py:10"⟩)] }

/-- C1 witness: a concrete duplicate registration for the `cpu` kind. -/
theorem c1_witness :
    c1op1.register_impl "cpu" (.user 2) "file.py:20" =
      .error (.duplicateKindRegistration (dup_kind_msg "cpu" c1op1.qualname "file.py:10"))
    ∧ ∃ pre post,
        dup_kind_msg "cpu" c1op1.qualname "file.py:10" = pre ++ "file.py:10" ++ post :=
  c1_duplicate_kind_registration c1op c1op1 "cpu" (.user 1) (.user 2)
    "file.py:10" "file.py:20" rfl

/-- C7: after `_destroy`, lookup of the qualified name in `global_registry`
returns `None`, the name is gone from the `torch.ops` name-indexed table,
`get_abstract_impl` returns `None`, and dispatch through a previously-held
weak reference fails `NotFound` instead of dereferencing freed state. -/
theorem c7_destroy_removes (st : GlobalState) (op : CustomOp) :
    dlookup (destroy st op).global_registry op.qualname = none
    ∧ op.qualname ∉ (destroy st op).torch_ops
    ∧ get_abstract_impl (destroy st op) op.qualname = none
    ∧ ∀ args, weakref_select (destroy st op) op.qualname args =
        .error (.notFound op.qualname) := by
  have h1 : dlookup (destroy st op).global_registry op.qualname = none := by
    simp [destroy, dlookup_derase_self]
  refine ⟨h1, ?_, ?_, ?_⟩
  · simp [destroy, List.mem_filter]
  · simp [get_abstract_impl, h1]
  · intro args
    simp [weakref_select, h1]

/-- C3: with implementations registered for both `cuda` (accelerator kind)
and `cpu` (host kind), a call whose arguments include one cuda tensor and
one cpu tensor dispatches to the `cuda` implementation — the
highest-priority kind present per the fixed order cuda before cpu. -/
theorem c3_priority_cuda_over_cpu (op : CustomOp) (fcuda fcpu : FuncAndLocation)
    (args : List ArgProp)
    (hcuda : dlookup op.impls "cuda" = some fcuda)
    (_hcpu : dlookup op.impls "cpu" = some fcpu)
    (hmem_cuda : (⟨true, "cuda"⟩ : ArgProp) ∈ args)
    (_hmem_cpu : (⟨true, "cpu"⟩ : ArgProp) ∈ args) :
    select op args = .ok fcuda := by
  have hk : "cuda" ∈ (args.filter (fun a => a.isTensorFamily)).map (fun a => a.kind) := by
    refine List.mem_map.mpr ⟨⟨true, "cuda"⟩, ?_, rfl⟩
    exact List.mem_filter.mpr ⟨hmem_cuda, rfl⟩
  have hne : (args.filter (fun a => a.isTensorFamily)).map (fun a => a.kind) ≠ [] :=
    List.ne_nil_of_mem hk
  simp only [select]
  rw [if_neg hne]
  simp [device_priority_order, List.find?, hk, hcuda]

def c3op : CustomOp :=
  { qualname := "mylib::foo", cpp_ns := "mylib", opname := "foo",
    schema := { kindIsFunctional := true, returns := [⟨none, .tensor⟩] },
    impls := [("cuda", ⟨.user 1, "lcu"⟩), ("cpu", ⟨.user 2, "lcp"⟩)],
    registeredAutogradKernelIndirection := false,
    outputDifferentiability := none }

/-- C3 witness: a concrete mixed cuda/cpu call selects the cuda impl. -/
theorem c3_witness :
    select c3op [⟨true, "cuda"⟩, ⟨true, "cpu"⟩] = .ok ⟨.user 1, "lcu"⟩ :=
  c3_priority_cuda_over_cpu c3op ⟨.user 1, "lcu"⟩ ⟨.user 2, "lcp"⟩
    [⟨true, "cuda"⟩, ⟨true, "cpu"⟩] rfl rfl (by decide) (by decide)

/-- C4: for a call with zero tensor-family arguments, `select` fails
`NoTensorInputs` (the source's `report_error_callback` message for the
`Undefined` dispatch key) when no factory-kind implementation is
registered, and returns the factory implementation — regardless of which
other kinds are registered — when one is. -/
theorem c4_no_tensor_inputs_factory (op : CustomOp) (args : List ArgProp)
    (h : args.filter (fun a => a.isTensorFamily) = []) :
    (dlookup op.impls "factory" = none →
      select op args =
        .error (.noTensorInputs (report_error_callback op.qualname "Undefined")))
    ∧ (∀ fl, dlookup op.impls "factory" = some fl → select op args = .ok fl) := by
  have ht : (args.filter (fun a => a.isTensorFamily)).map (fun a => a.kind) = [] := by
    rw [h]
    rfl
  constructor
  · intro hf
    simp [select, ht, hf]
  · intro fl hf
    simp [select, ht, hf]

def c4op_nofactory : CustomOp :=
  { c3op with impls := [("cuda", ⟨.user 1, "lcu"⟩)] }

def c4op_factory : CustomOp :=
  { c3op with impls := [("cuda", ⟨.user 1, "lcu"⟩), ("factory", ⟨.user 5, "lf"⟩)] }

/-- C4 witness: a concrete zero-tensor call fails `NoTensorInputs` without a
factory registration and selects the factory implementation with one. -/
theorem c4_witness :
    select c4op_nofactory [⟨false, ""⟩] =
      .error (.noTensorInputs (report_error_callback c4op_nofactory.qualname "Undefined"))
    ∧ select c4op_factory [⟨false, ""⟩] = .ok ⟨.user 5, "lf"⟩ :=
  ⟨(c4_no_tensor_inputs_factory c4op_nofactory [⟨false, ""⟩] rfl).1 rfl,
   (c4_no_tensor_inputs_factory c4op_factory [⟨false, ""⟩] rfl).2 ⟨.user 5, "lf"⟩ rfl⟩

/-- C9: when `func.__name__` differs from the operator name of the
qualified name, `declare` fails before any extension point is created or
any registry entry is added — the returned state is the input state,
untouched. -/
theorem c9_name_mismatch_fails (st : GlobalState) (qualname : String)
    (func : PyFunc) (ns name : String)
    (hp : parse_qualname qualname = .ok (ns, name))
    (hv : validate_namespace ns = .ok ())
    (hne : func.pyName ≠ name) :
    declare st qualname func =
      (st, .error (.funcNameMismatch (name_mismatch_msg qualname name func.pyName))) := by
  simp [declare, hp, hv, hne]

def c9fun : PyFunc :=
  { pyName := "bar",
    params := [⟨"x", some .tensor, false, .positionalOrKeyword⟩],
    retAnn := .single .tensor }

/-- C9 witness: declaring `mylib::foo` with a prototype named `bar` fails
with the name-mismatch error and leaves the state unchanged. -/
theorem c9_witness :
    declare ⟨[], [], []⟩ "mylib::foo" c9fun =
      (⟨[], [], []⟩, .error (.funcNameMismatch (name_mismatch_msg "mylib::foo" "foo" "bar"))) :=
  c9_name_mismatch_fails ⟨[], [], []⟩ "mylib::foo" c9fun "mylib" "foo" rfl rfl (by decide)

/-- C2 counterexample: the `global_registry` put (source line 203,
`global_registry[self._qualname] = self`) performs no duplicate check — with
`mylib::foo` already present it silently overwrites the entry instead of
failing `DuplicateDeclaration`, so the registry put and `declare` do not
perform the same check. -/
theorem c2_put_counterexample :
    global_registry_put [("mylib::foo", c1op)] "mylib::foo" c3op =
      [("mylib::foo", c3op)]
    ∧ c1op ≠ c3op := by
  constructor
  · rfl
  · decide

/-- C2 (amended): for a valid qualified name, `declare` succeeds exactly
once — a second `declare` with the same name while the first extension point
is live fails `DuplicateDeclaration` (raised by the dispatcher define step,
before the registry put runs) and returns the state unchanged, with the
LifetimeRegistry still mapping the name to the first extension point. The
registry put itself performs no duplicate check (see the counterexample);
uniqueness is enforced solely by the define step. -/
theorem c2_declare_exactly_once (st : GlobalState) (qualname : String)
    (func : PyFunc) (ns name s : String)
    (hp : parse_qualname qualname = .ok (ns, name))
    (hv : validate_namespace ns = .ok ())
    (hn : func.pyName = name)
    (hi : infer_schema func.params func.retAnn [] = .ok s)
    (hvs : validate_schema_model func = .ok ())
    (hd : st.dispatcher_defs.contains qualname = false) :
    ∃ st1 op, declare st qualname func = (st1, .ok op)
      ∧ declare st1 qualname func =
          (st1, .error (.duplicateDeclaration (dup_decl_msg qualname)))
      ∧ dlookup st1.global_registry qualname = some op := by
  refine ⟨⟨dinsert st.global_registry qualname
            (mk_custom_op ns name qualname func.retAnn),
           qualname :: st.dispatcher_defs, st.torch_ops⟩,
          mk_custom_op ns name qualname func.retAnn, ?_, ?_, ?_⟩
  · have hd' : qualname ∉ st.dispatcher_defs := by simpa using hd
    simp [declare, hp, hv, hn, hi, hvs, lib_define, hd', global_registry_put]
  · simp [declare, hp, hv, hn, hi, hvs, lib_define, global_registry_put]
  · exact dlookup_dinsert_self st.global_registry qualname _

def c2fun : PyFunc :=
  { pyName := "foo",
    params := [⟨"x", some .tensor, false, .positionalOrKeyword⟩],
    retAnn := .single .tensor }

/-- C2 witness: declaring `mylib::foo` succeeds once from the empty state
and a second declare fails `DuplicateDeclaration` with the state
unchanged. -/
theorem c2_witness :
    ∃ st1 op, declare ⟨[], [], []⟩ "mylib::foo" c2fun = (st1, .ok op)
      ∧ declare st1 "mylib::foo" c2fun =
          (st1, .error (.duplicateDeclaration (dup_decl_msg "mylib::foo")))
      ∧ dlookup st1.global_registry "mylib::foo" = some op :=
  c2_declare_exactly_once ⟨[], [], []⟩ "mylib::foo" c2fun "mylib" "foo"
    "(Tensor x) -> Tensor" rfl rfl rfl rfl rfl rfl

/-- The first unsupported device type in a list, if any. -/
def first_bad_device (ds : List String) : Option String :=
  ds.find? (fun d => !((dlookup SUPPORTED_DEVICE_TYPE_TO_KEY d).isSome))

theorem validate_device_types_error (ds : List String) (d0 : String)
    (h : first_bad_device ds = some d0) :
    validate_device_types ds = .error (.invalidDeviceType (device_err_msg d0)) := by
  induction ds with
  | nil => simp [first_bad_device, List.find?] at h
  | cons a rest ih =>
      by_cases hs : (dlookup SUPPORTED_DEVICE_TYPE_TO_KEY a).isSome
      · simp only [first_bad_device, List.find?_cons] at h ih
        rw [hs] at h
        simp only [Bool.not_true] at h
        simp [validate_device_types, validate_device_type, hs, ih h]
      · simp only [first_bad_device, List.find?_cons] at h
        rw [eq_false_of_ne_true hs] at h
        simp only [Bool.not_false, Option.some.injEq] at h
        subst h
        simp [validate_device_types, validate_device_type, hs]

/-- C10: if any supplied device type is outside the supported set
(`cpu`, `cuda`), the registration entry point fails with the
invalid-device-type error of the first such element; the error already
arises in the validation loop, which runs over every element before the
registration loop starts, so no implementation is stored. -/
theorem c10_device_type_validation (op : CustomOp) (device_types : List String)
    (probe : String → Bool) (f : Func) (loc : String) (d0 : String)
    (h : first_bad_device device_types = some d0) :
    validate_device_types device_types =
      .error (.invalidDeviceType (device_err_msg d0))
    ∧ op.impl_device device_types probe f loc =
        .error (.invalidDeviceType (device_err_msg d0))
    ∧ d0 ∈ device_types ∧ d0 ≠ "cpu" ∧ d0 ≠ "cuda" := by
  have hv := validate_device_types_error device_types d0 h
  have hmem : d0 ∈ device_types := List.mem_of_find?_eq_some h
  have hbad := List.find?_some h
  refine ⟨hv, by simp [CustomOp.impl_device, hv], hmem, ?_, ?_⟩
  · rintro rfl
    simp [SUPPORTED_DEVICE_TYPE_TO_KEY, dlookup] at hbad
  · rintro rfl
    simp [SUPPORTED_DEVICE_TYPE_TO_KEY, dlookup] at hbad

/-- C10 witness: registering for `["cpu", "mps"]` fails on `mps` during
validation, before any registration. -/
theorem c10_witness :
    validate_device_types ["cpu", "mps"] =
      .error (.invalidDeviceType (device_err_msg "mps"))
    ∧ c1op.impl_device ["cpu", "mps"] (fun _ => false) (.user 7) "lw" =
        .error (.invalidDeviceType (device_err_msg "mps"))
    ∧ "mps" ∈ ["cpu", "mps"] ∧ "mps" ≠ "cpu" ∧ "mps" ≠ "cuda" :=
  c10_device_type_validation c1op ["cpu", "mps"] (fun _ => false) (.user 7) "lw" "mps" rfl

theorem impl_sfb_fresh (op : CustomOp) (probe : String → Bool) (f : Func)
    (l : String)
    (hcheck : op.check_can_register_backward = .ok ())
    (hflag : op.registeredAutogradKernelIndirection = false)
    (hprobe : ∀ k, probe k = false)
    (hsb : dlookup op.impls "save_for_backward" = none)
    (hb : dlookup op.impls "backward" = none) :
    op.impl_save_for_backward probe f l =
      .ok { op with registeredAutogradKernelIndirection := true,
                    impls := dinsert op.impls "save_for_backward" ⟨f, l⟩ } := by
  have hne : ("save_for_backward" : String) ≠ "backward" := by decide
  have h2 : dlookup (dinsert op.impls "save_for_backward" (⟨f, l⟩ : FuncAndLocation))
      "backward" = none := by
    rw [dlookup_dinsert_ne _ _ _ _ hne, hb]
  simp [CustomOp.impl_save_for_backward, hcheck,
    CustomOp.check_doesnt_have_library_autograd_impl, hflag, hprobe,
    CustomOp.register_autograd_kernel_indirection, CustomOp.register_impl,
    CustomOp.has_impl, hsb, h2]

theorem impl_backward_fresh (op : CustomOp) (probe : String → Bool) (g : Func)
    (l : String)
    (hcheck : op.check_can_register_backward = .ok ())
    (hflag : op.registeredAutogradKernelIndirection = false)
    (hprobe : ∀ k, probe k = false)
    (hsb : dlookup op.impls "save_for_backward" = none)
    (hb : dlookup op.impls "backward" = none) :
    op.impl_backward none probe g l =
      .ok { op with registeredAutogradKernelIndirection := true,
                    impls := dinsert op.impls "backward" ⟨g, l⟩,
                    outputDifferentiability := none } := by
  have hne : ("backward" : String) ≠ "save_for_backward" := by decide
  have h2 : dlookup (dinsert op.impls "backward" (⟨g, l⟩ : FuncAndLocation))
      "save_for_backward" = none := by
    rw [dlookup_dinsert_ne _ _ _ _ hne, hsb]
  simp [CustomOp.impl_backward, check_output_differentiability, hcheck,
    CustomOp.check_doesnt_have_library_autograd_impl, hflag, hprobe,
    CustomOp.register_autograd_kernel_indirection, CustomOp.register_impl,
    CustomOp.has_impl, hb, h2]

theorem impl_backward_completes (op : CustomOp) (probe : String → Bool)
    (g : Func) (l : String) (sfl : FuncAndLocation)
    (hcheck : op.check_can_register_backward = .ok ())
    (hflag : op.registeredAutogradKernelIndirection = true)
    (hs : dlookup op.impls "save_for_backward" = some sfl)
    (hb : dlookup op.impls "backward" = none)
    (ha : dlookup op.impls "autograd" = none) :
    op.impl_backward none probe g l =
      .ok { op with impls := dinsert (dinsert op.impls "backward" ⟨g, l⟩)
                      "autograd" ⟨.autogradKernel sfl.func g, l⟩,
                    outputDifferentiability := none } := by
  have hne1 : ("backward" : String) ≠ "save_for_backward" := by decide
  have hne2 : ("backward" : String) ≠ "autograd" := by decide
  have h2 : dlookup (dinsert op.impls "backward" (⟨g, l⟩ : FuncAndLocation))
      "save_for_backward" = some sfl := by
    rw [dlookup_dinsert_ne _ _ _ _ hne1, hs]
  have h3 : dlookup (dinsert op.impls "backward" (⟨g, l⟩ : FuncAndLocation))
      "autograd" = none := by
    rw [dlookup_dinsert_ne _ _ _ _ hne2, ha]
  have h4 : dlookup (dinsert op.impls "backward" (⟨g, l⟩ : FuncAndLocation))
      "backward" = some ⟨g, l⟩ := dlookup_dinsert_self _ _ _
  simp [CustomOp.impl_backward, check_output_differentiability, hcheck,
    CustomOp.check_doesnt_have_library_autograd_impl, hflag,
    CustomOp.register_impl, CustomOp.has_impl, hb, h2, h3, h4,
    CustomOp.register_autograd_kernel, construct_autograd_kernel]

theorem impl_sfb_completes (op : CustomOp) (probe : String → Bool) (f : Func)
    (l : String) (bfl : FuncAndLocation)
    (hcheck : op.check_can_register_backward = .ok ())
    (hflag : op.registeredAutogradKernelIndirection = true)
    (hbw : dlookup op.impls "backward" = some bfl)
    (hsb : dlookup op.impls "save_for_backward" = none)
    (ha : dlookup op.impls "autograd" = none) :
    op.impl_save_for_backward probe f l =
      .ok { op with impls := dinsert (dinsert op.impls "save_for_backward" ⟨f, l⟩)
                      "autograd" ⟨.autogradKernel f bfl.func, l⟩ } := by
  have hne1 : ("save_for_backward" : String) ≠ "backward" := by decide
  have hne2 : ("save_for_backward" : String) ≠ "autograd" := by decide
  have h2 : dlookup (dinsert op.impls "save_for_backward" (⟨f, l⟩ : FuncAndLocation))
      "backward" = some bfl := by
    rw [dlookup_dinsert_ne _ _ _ _ hne1, hbw]
  have h3 : dlookup (dinsert op.impls "save_for_backward" (⟨f, l⟩ : FuncAndLocation))
      "autograd" = none := by
    rw [dlookup_dinsert_ne _ _ _ _ hne2, ha]
  have h4 : dlookup (dinsert op.impls "save_for_backward" (⟨f, l⟩ : FuncAndLocation))
      "save_for_backward" = some ⟨f, l⟩ := dlookup_dinsert_self _ _ _
  simp [CustomOp.impl_save_for_backward, hcheck,
    CustomOp.check_doesnt_have_library_autograd_impl, hflag,
    CustomOp.register_impl, CustomOp.has_impl, hsb, h2, h3, h4,
    CustomOp.register_autograd_kernel, construct_autograd_kernel]

/-- C6: the composed autograd kernel is registered exactly when both
sub-pieces (`save_for_backward` and `backward`) have been registered,
regardless of the registration order; while at most one sub-piece is
present the composed kernel is not live, and calling the operator's
composed behavior through the indirection kernel fails
`IncompleteComposition`; once both are present the composed kernel —
built from the two sub-pieces — is live. -/
theorem c6_autograd_composition (op : CustomOp) (probe : String → Bool)
    (f g : Func) (l1 l2 : String)
    (hcheck : op.check_can_register_backward = .ok ())
    (hflag : op.registeredAutogradKernelIndirection = false)
    (hprobe : ∀ k, probe k = false)
    (hsb : dlookup op.impls "save_for_backward" = none)
    (hb : dlookup op.impls "backward" = none)
    (ha : dlookup op.impls "autograd" = none) :
    autograd_indirection_call op = .error (.incompleteComposition op.qualname)
    ∧ (∃ op1, op.impl_save_for_backward probe f l1 = .ok op1
        ∧ dlookup op1.impls "autograd" = none
        ∧ autograd_indirection_call op1 = .error (.incompleteComposition op1.qualname)
        ∧ ∃ op2, op1.impl_backward none probe g l2 = .ok op2
            ∧ dlookup op2.impls "autograd" = some ⟨.autogradKernel f g, l2⟩)
    ∧ (∃ op1, op.impl_backward none probe g l2 = .ok op1
        ∧ dlookup op1.impls "autograd" = none
        ∧ autograd_indirection_call op1 = .error (.incompleteComposition op1.qualname)
        ∧ ∃ op2, op1.impl_save_for_backward probe f l1 = .ok op2
            ∧ dlookup op2.impls "autograd" = some ⟨.autogradKernel f g, l1⟩) := by
  have hne_sb_b : ("save_for_backward" : String) ≠ "backward" := by decide
  have hne_sb_a : ("save_for_backward" : String) ≠ "autograd" := by decide
  have hne_b_sb : ("backward" : String) ≠ "save_for_backward" := by decide
  have hne_b_a : ("backward" : String) ≠ "autograd" := by decide
  refine ⟨by simp [autograd_indirection_call, ha], ?_, ?_⟩
  · refine ⟨_, impl_sfb_fresh op probe f l1 hcheck hflag hprobe hsb hb, ?_, ?_, ?_⟩
    · show dlookup (dinsert op.impls "save_for_backward" ⟨f, l1⟩) "autograd" = none
      rw [dlookup_dinsert_ne _ _ _ _ hne_sb_a, ha]
    · have hano : dlookup (dinsert op.impls "save_for_backward"
          (⟨f, l1⟩ : FuncAndLocation)) "autograd" = none := by
        rw [dlookup_dinsert_ne _ _ _ _ hne_sb_a, ha]
      simp [autograd_indirection_call, hano]
    · refine ⟨_, impl_backward_completes _ probe g l2 ⟨f, l1⟩ hcheck rfl
        (dlookup_dinsert_self _ _ _) ?_ ?_, ?_⟩
      · show dlookup (dinsert op.impls "save_for_backward" ⟨f, l1⟩) "backward" = none
        rw [dlookup_dinsert_ne _ _ _ _ hne_sb_b, hb]
      · show dlookup (dinsert op.impls "save_for_backward" ⟨f, l1⟩) "autograd" = none
        rw [dlookup_dinsert_ne _ _ _ _ hne_sb_a, ha]
      · exact dlookup_dinsert_self _ _ _
  · refine ⟨_, impl_backward_fresh op probe g l2 hcheck hflag hprobe hsb hb, ?_, ?_, ?_⟩
    · show dlookup (dinsert op.impls "backward" ⟨g, l2⟩) "autograd" = none
      rw [dlookup_dinsert_ne _ _ _ _ hne_b_a, ha]
    · have hano : dlookup (dinsert op.impls "backward"
          (⟨g, l2⟩ : FuncAndLocation)) "autograd" = none := by
        rw [dlookup_dinsert_ne _ _ _ _ hne_b_a, ha]
      simp [autograd_indirection_call, hano]
    · refine ⟨_, impl_sfb_completes _ probe f l1 ⟨g, l2⟩ hcheck rfl
        (dlookup_dinsert_self _ _ _) ?_ ?_, ?_⟩
      · show dlookup (dinsert op.impls "backward" ⟨g, l2⟩) "save_for_backward" = none
        rw [dlookup_dinsert_ne _ _ _ _ hne_b_sb, hsb]
      · show dlookup (dinsert op.impls "backward" ⟨g, l2⟩) "autograd" = none
        rw [dlookup_dinsert_ne _ _ _ _ hne_b_a, ha]
      · exact dlookup_dinsert_self _ _ _

def c6op : CustomOp :=
  { qualname := "mylib::foo", cpp_ns := "mylib", opname := "foo",
    schema := { kindIsFunctional := true, returns := [⟨none, .tensor⟩] },
    impls := [], registeredAutogradKernelIndirection := false,
    outputDifferentiability := none }

/-- C6 witness: a concrete operator, both registration orders. -/
theorem c6_witness :
    autograd_indirection_call c6op = .error (.incompleteComposition c6op.qualname)
    ∧ (∃ op1, c6op.impl_save_for_backward (fun _ => false) (.user 1) "l1" = .ok op1
        ∧ dlookup op1.impls "autograd" = none
        ∧ autograd_indirection_call op1 = .error (.incompleteComposition op1.qualname)
        ∧ ∃ op2, op1.impl_backward none (fun _ => false) (.user 2) "l2" = .ok op2
            ∧ dlookup op2.impls "autograd" =
                some ⟨.autogradKernel (.user 1) (.user 2), "l2"⟩)
    ∧ (∃ op1, c6op.impl_backward none (fun _ => false) (.user 2) "l2" = .ok op1
        ∧ dlookup op1.impls "autograd" = none
        ∧ autograd_indirection_call op1 = .error (.incompleteComposition op1.qualname)
        ∧ ∃ op2, op1.impl_save_for_backward (fun _ => false) (.user 1) "l1" = .ok op2
            ∧ dlookup op2.impls "autograd" =
                some ⟨.autogradKernel (.user 1) (.user 2), "l1"⟩) :=
  c6_autograd_composition c6op (fun _ => false) (.user 1) (.user 2) "l1" "l2"
    rfl rfl (fun _ => rfl) rfl rfl rfl
